import Mathlib

/-!
Shallow embedding of `src/backend/routers/announcements.py` (announcements
CRUD router over a MongoDB collection), together with theorems settling the
claims about it.

Modelling conventions:

* A MongoDB document of the collection is an `Announcement`; its `_id`
  (a BSON ObjectId) is modelled as a `Nat`.  The collection is a `Store`:
  the list of documents plus a counter supplying the fresh `_id` that
  `insert_one` assigns.  `find_one`, `update_one` and `delete_one` act on
  the first matching document, as in MongoDB.
* `bson.ObjectId(string)` accepts exactly 24-character hexadecimal strings
  (case-insensitive) and raises `InvalidId` otherwise; `parseObjectId`
  models it, returning `none` where the constructor raises.
* `datetime.fromisoformat` is external library code; `fromisoformat`
  models it on the `YYYY-MM-DD` and `YYYY-MM-DDTHH:MM:SS` shapes the
  service exchanges, returning `none` where Python raises `ValueError`
  (the day-of-month upper bound is simplified to 31 for every month).
  The returned `Nat` encodes the fields lexicographically, so `<` on the
  encodings agrees with `<` on Python `datetime` values.
  Python's `datetime.fromisoformat(None)` raises `TypeError`, not
  `ValueError`; the `ApiResult.typeError` constructor records an uncaught
  `TypeError` escaping the route handler.
* The dates stored in documents are ISO strings, and the Mongo queries
  `{"$gt": now}` / `{"$lte": now}` compare those strings; `strLtB` /
  `strLeB` implement that string comparison and are proved equivalent to
  Lean's lexicographic order on `String`.
* `start_date` / `expiration_date` are `Option String`: `none` models the
  field being absent from the document or stored as null (the code treats
  the two alike everywhere: the `$or` query matches both branches, and
  `announcement.get(...)` returns `None` for both).
* `datetime.now().isoformat()` is passed in as the parameter `now`; the
  two `now()` calls inside `create_announcement` are modelled by the same
  instant.
* Each route handler becomes a function from the store and its request
  arguments to an `ApiResult`: `ok` carries the store after the call and
  the JSON-serialised return value, `validationError` an HTTP 400
  `HTTPException` detail, `notFoundError` an HTTP 404 detail, and
  `typeError` an uncaught exception.  The `_id`-to-string conversion done
  for JSON serialisation is dropped: returned documents keep their `Nat`
  id.
-/

/-- Boolean lexicographic comparison of character lists; models MongoDB's
byte-wise comparison of (ASCII) BSON strings. -/
def charsLt : List Char → List Char → Bool
  | [], [] => false
  | [], _ :: _ => true
  | _ :: _, [] => false
  | a :: as, b :: bs => if a < b then true else if b < a then false else charsLt as bs

/-- Strict string comparison used by the `$gt` Mongo query. -/
def strLtB (a b : String) : Bool := charsLt a.toList b.toList

/-- Non-strict string comparison used by the `$lte` Mongo query. -/
def strLeB (a b : String) : Bool := strLtB a b || a == b

/-- A decimal digit's value, `none` on a non-digit. -/
def digitVal (c : Char) : Option Nat :=
  if c.isDigit then some (c.toNat - 48) else none

/-- Two decimal digits. -/
def num2 (a b : Char) : Option Nat := do
  let x ← digitVal a
  let y ← digitVal b
  pure (10 * x + y)

/-- Four decimal digits. -/
def num4 (a b c d : Char) : Option Nat := do
  let x ← num2 a b
  let y ← num2 c d
  pure (100 * x + y)

/-- Lexicographic encoding of a date-time; strictly monotone in each field
given the bounds checked by `validDT`. -/
def encodeDT (y mo d h mi s : Nat) : Nat :=
  ((((y * 12 + (mo - 1)) * 31 + (d - 1)) * 24 + h) * 60 + mi) * 60 + s

/-- Field bounds `datetime` enforces (day-of-month simplified to 31). -/
def validDT (y mo d h mi s : Nat) : Bool :=
  1 ≤ y && 1 ≤ mo && mo ≤ 12 && 1 ≤ d && d ≤ 31 && h ≤ 23 && mi ≤ 59 && s ≤ 59

/-- Build the encoded value after the bounds check. -/
def mkDT (y mo d h mi s : Nat) : Option Nat :=
  if validDT y mo d h mi s then some (encodeDT y mo d h mi s) else none

/-- Models `datetime.fromisoformat` on a `str` argument: parses
`YYYY-MM-DD` or `YYYY-MM-DDTHH:MM:SS`, `none` where Python raises
`ValueError`. -/
def fromisoformat (s : String) : Option Nat :=
  match s.toList with
  | [y1, y2, y3, y4, '-', a1, a2, '-', d1, d2] => do
      let y ← num4 y1 y2 y3 y4
      let mo ← num2 a1 a2
      let d ← num2 d1 d2
      mkDT y mo d 0 0 0
  | [y1, y2, y3, y4, '-', a1, a2, '-', d1, d2, 'T', h1, h2, ':', n1, n2, ':', s1, s2] => do
      let y ← num4 y1 y2 y3 y4
      let mo ← num2 a1 a2
      let d ← num2 d1 d2
      let h ← num2 h1 h2
      let mi ← num2 n1 n2
      let sec ← num2 s1 s2
      mkDT y mo d h mi sec
  | _ => none

/-- Hexadecimal digit test, as accepted by `bson.ObjectId`. -/
def hexDigit (c : Char) : Bool :=
  c.isDigit || ('a' ≤ c && c ≤ 'f') || ('A' ≤ c && c ≤ 'F')

/-- A hexadecimal digit's value (callers guard with `hexDigit`). -/
def hexVal (c : Char) : Nat :=
  if c.isDigit then c.toNat - 48
  else if 'a' ≤ c && c ≤ 'f' then c.toNat - 87
  else c.toNat - 55

/-- Models `bson.ObjectId(announcement_id)`: a 24-character hex string maps
to its numeric value, anything else makes the constructor raise
(`none`). -/
def parseObjectId (s : String) : Option Nat :=
  let cs := s.toList
  if cs.length = 24 && cs.all hexDigit then
    some (cs.foldl (fun acc c => 16 * acc + hexVal c) 0)
  else none

/-- One document of the `announcements` collection. -/
structure Announcement where
  id : Nat
  title : String
  message : String
  start_date : Option String
  expiration_date : Option String
  created_at : String
deriving Repr, DecidableEq

/-- The collection plus the store's fresh-id counter. -/
structure Store where
  docs : List Announcement
  nextId : Nat
deriving Repr, DecidableEq

/-- Outcome of one route handler call. -/
inductive ApiResult (α : Type) where
  | ok (store : Store) (value : α)
  | validationError (detail : String)
  | notFoundError (detail : String)
  | typeError
deriving Repr, DecidableEq

/-- The store after a call: `ok` carries the new store, every error leaves
the store as it was (each handler raises before or instead of writing). -/
def storeAfter (s : Store) : ApiResult α → Store
  | .ok s2 _ => s2
  | .validationError _ => s
  | .notFoundError _ => s
  | .typeError => s

/-- The Mongo predicate `{"expiration_date": {"$gt": now}}`: the field must
be present, be a string, and exceed `now`. -/
def gtNow (now : String) (f : Option String) : Bool :=
  match f with
  | some e => strLtB now e
  | none => false

/-- The Mongo `$or` over `start_date`: `{"$lte": now}`, `{"$exists": False}`
or `None` (the last two are both `none` here). -/
def startOk (now : String) (f : Option String) : Bool :=
  match f with
  | some ss => strLeB ss now
  | none => true

/-- Route `GET /announcements` (`get_announcements`): all documents when
`include_expired`, else those with `expiration_date` beyond `now`. -/
def get_announcements (s : Store) (now : String) (include_expired : Bool) :
    List Announcement :=
  if include_expired then s.docs
  else s.docs.filter (fun a => gtNow now a.expiration_date)

/-- Route `GET /announcements/active` (`get_active_announcements`). -/
def get_active_announcements (s : Store) (now : String) : List Announcement :=
  s.docs.filter (fun a => startOk now a.start_date && gtNow now a.expiration_date)

/-- Models `if not start_date: start_date = datetime.now().isoformat()` — Python's
falsy test replaces both `None` and `""` by the current instant. -/
def effectiveStart (now : String) (start_date : Option String) : String :=
  match start_date with
  | none => now
  | some v => if v = "" then now else v

/-- Route `POST /announcements` (`create_announcement`). -/
def create_announcement (s : Store) (now : String)
    (title message expiration_date : String) (start_date : Option String) :
    ApiResult Announcement :=
  let sd := effectiveStart now start_date
  match fromisoformat sd with
  | none => .validationError "Invalid date format"
  | some start_dt =>
    match fromisoformat expiration_date with
    | none => .validationError "Invalid date format"
    | some expiry_dt =>
      if expiry_dt ≤ start_dt then
        .validationError "Expiration date must be after start date"
      else
        let doc : Announcement :=
          { id := s.nextId, title := title, message := message,
            start_date := some sd, expiration_date := some expiration_date,
            created_at := now }
        .ok { docs := s.docs ++ [doc], nextId := s.nextId + 1 } doc

/-- Models `update_data.get(field, announcement.get(field))`: the supplied value
when present, else the stored one. -/
def mergeField (supplied stored : Option String) : Option String :=
  match supplied with
  | some v => some v
  | none => stored

/-- The `$set` of the supplied fields over a document (`update_data` holds
exactly the non-`None` request arguments). -/
def applyFields (title message expiration_date start_date : Option String)
    (a : Announcement) : Announcement :=
  { a with
    title := title.getD a.title,
    message := message.getD a.message,
    expiration_date := mergeField expiration_date a.expiration_date,
    start_date := mergeField start_date a.start_date }

/-- Models `update_one` on the first document matching the filter. -/
def updateFirst (p : Announcement → Bool) (f : Announcement → Announcement) :
    List Announcement → List Announcement
  | [] => []
  | a :: as => if p a then f a :: as else a :: updateFirst p f as

/-- Lines 152-164 of the route: `update_one`, the `matched_count` check,
and the final `find_one` returning the updated document (the impossible
`find_one` miss after a successful match surfaces as the unchecked
subscript on `None`, i.e. `typeError`). -/
def updateWrite (s : Store) (obj_id : Nat)
    (title message expiration_date start_date : Option String) :
    ApiResult Announcement :=
  match s.docs.find? (fun d => d.id == obj_id) with
  | none => .notFoundError "Announcement not found"
  | some _ =>
    let docs := updateFirst (fun d => d.id == obj_id)
      (applyFields title message expiration_date start_date) s.docs
    match docs.find? (fun d => d.id == obj_id) with
    | none => .typeError
    | some updated => .ok { docs := docs, nextId := s.nextId } updated

/-- Lines 137-150 of the route: merge the supplied dates over the stored
ones and validate.  `some r` is the raised outcome (`typeError` models
`datetime.fromisoformat(None)`, whose `TypeError` the `except ValueError`
clause does not catch); `none` means validation passed.  Python evaluates
`fromisoformat(start_dt_str)` before touching `expiry_dt_str`, hence the
order of the matches. -/
def mergedCheck (announcement : Announcement)
    (expiration_date start_date : Option String) :
    Option (ApiResult Announcement) :=
  match mergeField start_date announcement.start_date with
  | none => some .typeError
  | some ss =>
    match fromisoformat ss with
    | none => some (.validationError "Invalid date format")
    | some start_dt =>
      match mergeField expiration_date announcement.expiration_date with
      | none => some .typeError
      | some es =>
        match fromisoformat es with
        | none => some (.validationError "Invalid date format")
        | some expiry_dt =>
          if expiry_dt ≤ start_dt then
            some (.validationError "Expiration date must be after start date")
          else none

/-- Route `PUT /announcements/{announcement_id}` (`update_announcement`). -/
def update_announcement (s : Store) (announcement_id : String)
    (title message expiration_date start_date : Option String) :
    ApiResult Announcement :=
  match parseObjectId announcement_id with
  | none => .validationError "Invalid announcement ID"
  | some obj_id =>
    if title.isNone && message.isNone && expiration_date.isNone && start_date.isNone then
      .validationError "No fields to update"
    else
      if start_date.isSome || expiration_date.isSome then
        match s.docs.find? (fun d => d.id == obj_id) with
        | none => .notFoundError "Announcement not found"
        | some announcement =>
          match mergedCheck announcement expiration_date start_date with
          | some r => r
          | none => updateWrite s obj_id title message expiration_date start_date
      else
        updateWrite s obj_id title message expiration_date start_date

/-- Route `DELETE /announcements/{announcement_id}` (`delete_announcement`);
`delete_one` removes the first matching document, `deleted_count == 0`
is the no-match case. -/
def delete_announcement (s : Store) (announcement_id : String) :
    ApiResult String :=
  match parseObjectId announcement_id with
  | none => .validationError "Invalid announcement ID"
  | some obj_id =>
    match s.docs.find? (fun d => d.id == obj_id) with
    | none => .notFoundError "Announcement not found"
    | some _ =>
      .ok { docs := s.docs.eraseP (fun d => d.id == obj_id), nextId := s.nextId }
        "Announcement deleted successfully"

/-- The date invariant on a stored document: both date fields present,
both parse, and the expiration is strictly after the start. -/
def datesOk (a : Announcement) : Prop :=
  ∃ ss es ts te, a.start_date = some ss ∧ a.expiration_date = some es ∧
    fromisoformat ss = some ts ∧ fromisoformat es = some te ∧ ts < te

/-- A well-formed identifier string (maps to ObjectId 0). -/
def zeroId : String := "000000000000000000000000"

/-- A sample stored document with valid date ordering. -/
def sampleDoc : Announcement :=
  ⟨0, "t", "m", some "2024-01-01T00:00:00", some "2025-01-01T00:00:00", "c"⟩

/-- A sample stored document whose `start_date` is absent/null. -/
def sampleDocNoStart : Announcement :=
  ⟨0, "t", "m", none, some "2025-01-01T00:00:00", "c"⟩

/-- A sample stored document whose own date ordering is invalid. -/
def badDoc : Announcement :=
  ⟨0, "t", "m", some "2030-01-01T00:00:00", some "2020-01-01T00:00:00", "c"⟩

/-- The function `charsLt` computes the lexicographic order on character lists. -/
theorem charsLt_iff (as bs : List Char) : charsLt as bs = true ↔ as < bs := by
  induction as generalizing bs with
  | nil =>
    cases bs with
    | nil => simp [charsLt]
    | cons b bs => simp [charsLt]; exact List.Lex.nil
  | cons a as ih =>
    cases bs with
    | nil => simp [charsLt]
    | cons b bs =>
      simp only [charsLt]
      by_cases hab : a < b
      · simp [hab]; exact List.Lex.rel hab
      · by_cases hba : b < a
        · simp [hab, hba]
          exact le_of_lt (List.Lex.rel hba)
        · have heq : a = b := le_antisymm (not_lt.mp hba) (not_lt.mp hab)
          subst heq
          simp [hab, hba, ih]
          constructor
          · exact fun h => List.Lex.cons h
          · intro h
            cases h with
            | cons h => exact h
            | rel h => exact absurd h hab

/-- The function `strLtB` computes the strict lexicographic order on strings. -/
theorem strLtB_iff (a b : String) : strLtB a b = true ↔ a < b := by
  rw [String.lt_iff_toList_lt]
  exact charsLt_iff _ _

/-- The function `strLeB` computes the non-strict lexicographic order on strings. -/
theorem strLeB_iff (a b : String) : strLeB a b = true ↔ a ≤ b := by
  rw [le_iff_lt_or_eq, strLeB]
  simp [strLtB_iff]

/-- The `$gt` predicate holds exactly on present fields beyond `now`. -/
theorem gtNow_iff (now : String) (f : Option String) :
    gtNow now f = true ↔ ∃ e, f = some e ∧ now < e := by
  cases f with
  | none => simp [gtNow]
  | some e => simp [gtNow, strLtB_iff]

/-- The `$or` over `start_date` holds exactly on absent/null fields or
values at or before `now`. -/
theorem startOk_iff (now : String) (f : Option String) :
    startOk now f = true ↔ f = none ∨ ∃ ss, f = some ss ∧ ss ≤ now := by
  cases f with
  | none => simp [startOk]
  | some ss => simp [startOk, strLeB_iff]

/-- C3: `list(true)` returns all records; `list(false)` returns exactly the
records whose `expiration_date` is strictly greater than `now`; hence
`list(true)` is a superset of `list(false)`. -/
theorem C3_list_exp_filter (s : Store) (now : String) :
    get_announcements s now true = s.docs ∧
    (∀ a, a ∈ get_announcements s now false ↔
      a ∈ s.docs ∧ ∃ e, a.expiration_date = some e ∧ now < e) ∧
    (∀ a, a ∈ get_announcements s now false → a ∈ get_announcements s now true) := by
  refine ⟨rfl, fun a => ?_, fun a h => ?_⟩
  · simp [get_announcements, List.mem_filter, gtNow_iff]
  · simp only [get_announcements, if_true, Bool.false_eq_true, if_false] at h ⊢
    exact (List.mem_filter.mp h).1

/-- C3 witness: a concrete two-record store where the expired record is
listed only with `include_expired`. -/
theorem C3_list_exp_filter_witness :
    (⟨0, "t", "m", some "2024-01-01", some "2024-06-01", "c"⟩ : Announcement) ∈
      get_announcements
        ⟨[⟨0, "t", "m", some "2024-01-01", some "2024-06-01", "c"⟩], 1⟩
        "2024-03-01" false := by
  refine ((C3_list_exp_filter _ "2024-03-01").2.1 _).mpr
    ⟨by simp, "2024-06-01", rfl, (strLtB_iff _ _).mp (by decide)⟩

/-- C4: `listActive` returns exactly the records with (`start_date` absent
or null, or `start_date <= now`) and `expiration_date > now`; a record
starting exactly at `now` is included, one expiring exactly at `now` is
excluded. -/
theorem C4_active_window (s : Store) (now : String) :
    (∀ a, a ∈ get_active_announcements s now ↔
      a ∈ s.docs ∧
        (a.start_date = none ∨ ∃ ss, a.start_date = some ss ∧ ss ≤ now) ∧
        (∃ e, a.expiration_date = some e ∧ now < e)) ∧
    (∀ a, a ∈ s.docs → a.start_date = some now →
      (∃ e, a.expiration_date = some e ∧ now < e) →
      a ∈ get_active_announcements s now) ∧
    (∀ a, a.expiration_date = some now → a ∉ get_active_announcements s now) := by
  have hmem : ∀ a : Announcement, a ∈ get_active_announcements s now ↔
      a ∈ s.docs ∧
        (a.start_date = none ∨ ∃ ss, a.start_date = some ss ∧ ss ≤ now) ∧
        (∃ e, a.expiration_date = some e ∧ now < e) := by
    intro a
    simp [get_active_announcements, List.mem_filter, gtNow_iff, startOk_iff,
      and_assoc]
  refine ⟨hmem, fun a hd hs he => ?_, fun a he hmem2 => ?_⟩
  · exact (hmem a).mpr ⟨hd, Or.inr ⟨now, hs, le_refl now⟩, he⟩
  · rcases ((hmem a).mp hmem2).2.2 with ⟨e, hsome, hlt⟩
    rw [he] at hsome
    cases hsome
    exact lt_irrefl now hlt

/-- C4 witness: a record that starts exactly at `now` and has not expired
is listed as active. -/
theorem C4_active_window_witness :
    (⟨0, "t", "m", some "2024-03-01", some "2024-06-01", "c"⟩ : Announcement) ∈
      get_active_announcements
        ⟨[⟨0, "t", "m", some "2024-03-01", some "2024-06-01", "c"⟩], 1⟩
        "2024-03-01" := by
  refine (C4_active_window _ "2024-03-01").2.1 _ (by simp) rfl
    ⟨"2024-06-01", rfl, (strLtB_iff _ _).mp (by decide)⟩

/-- Inversion of a successful create: the effective dates parsed in order,
and the returned document is the one appended to the collection. -/
theorem create_ok_inv (s : Store) (now title message expiration_date : String)
    (start_date : Option String) (s2 : Store) (doc : Announcement)
    (h : create_announcement s now title message expiration_date start_date =
      .ok s2 doc) :
    ∃ ts te, fromisoformat (effectiveStart now start_date) = some ts ∧
      fromisoformat expiration_date = some te ∧ ts < te ∧
      doc = ⟨s.nextId, title, message, some (effectiveStart now start_date),
        some expiration_date, now⟩ ∧
      s2 = ⟨s.docs ++ [doc], s.nextId + 1⟩ := by
  unfold create_announcement at h
  cases hs : fromisoformat (effectiveStart now start_date) with
  | none => simp only [hs] at h; simp at h
  | some ts =>
    simp only [hs] at h
    cases he : fromisoformat expiration_date with
    | none => simp only [he] at h; simp at h
    | some te =>
      simp only [he] at h
      by_cases hle : te ≤ ts
      · rw [if_pos hle] at h; simp at h
      · rw [if_neg hle] at h
        simp only [ApiResult.ok.injEq] at h
        obtain ⟨hs2, hdoc⟩ := h
        refine ⟨ts, te, rfl, rfl, lt_of_not_ge hle, hdoc.symm, ?_⟩
        rw [← hdoc]
        exact hs2.symm

/-- Running `find?` after `update_one` on the first match: the first match is the
updated document, provided the update preserves the filter. -/
theorem find_updateFirst (p : Announcement → Bool)
    (f : Announcement → Announcement) (l : List Announcement)
    (hf : ∀ a, p (f a) = p a) :
    (updateFirst p f l).find? p = (l.find? p).map f := by
  induction l with
  | nil => rfl
  | cons a as ih =>
    by_cases h : p a
    · simp [updateFirst, h, hf, List.find?_cons_of_pos]
    · simp [updateFirst, h, List.find?_cons_of_neg, ih]

/-- The update `applyFields` never changes a document's `_id`. -/
theorem applyFields_id (t m e sd : Option String) (a : Announcement) :
    (applyFields t m e sd a).id = a.id := rfl

/-- A successful `update_one` + `find_one` round trip on a present
document. -/
theorem updateWrite_eq_ok (s : Store) (obj_id : Nat)
    (t m e sd : Option String) (a : Announcement)
    (hfind : s.docs.find? (fun d => d.id == obj_id) = some a) :
    updateWrite s obj_id t m e sd = .ok
      ⟨updateFirst (fun d => d.id == obj_id) (applyFields t m e sd) s.docs,
        s.nextId⟩
      (applyFields t m e sd a) := by
  have hfu := find_updateFirst (fun d => d.id == obj_id) (applyFields t m e sd)
    s.docs (fun b => rfl)
  unfold updateWrite
  simp only [hfind, hfu, Option.map_some']

/-- Inversion of a successful write: the target existed, the stored list is
the pointwise update of the first match, and the returned document is the
updated target. -/
theorem updateWrite_ok_inv (s : Store) (obj_id : Nat)
    (t m e sd : Option String) (s2 : Store) (ret : Announcement)
    (h : updateWrite s obj_id t m e sd = .ok s2 ret) :
    ∃ a, s.docs.find? (fun d => d.id == obj_id) = some a ∧
      ret = applyFields t m e sd a ∧
      s2 = ⟨updateFirst (fun d => d.id == obj_id) (applyFields t m e sd)
        s.docs, s.nextId⟩ := by
  cases hfind : s.docs.find? (fun d => d.id == obj_id) with
  | none => unfold updateWrite at h; rw [hfind] at h; simp at h
  | some a =>
    rw [updateWrite_eq_ok s obj_id t m e sd a hfind] at h
    simp only [ApiResult.ok.injEq] at h
    exact ⟨a, rfl, h.2.symm, h.1.symm⟩

/-- The merged-date validation passes exactly when both merged fields are
present, both parse, and the parsed expiration is after the parsed
start. -/
theorem mergedCheck_pass_iff (a : Announcement) (e sd : Option String) :
    mergedCheck a e sd = none ↔
    ∃ ss es ts te, mergeField sd a.start_date = some ss ∧
      mergeField e a.expiration_date = some es ∧
      fromisoformat ss = some ts ∧ fromisoformat es = some te ∧ ts < te := by
  unfold mergedCheck
  cases hss : mergeField sd a.start_date with
  | none => simp [hss]
  | some ss =>
    cases hts : fromisoformat ss with
    | none => simp [hss, hts]
    | some ts =>
      cases hes : mergeField e a.expiration_date with
      | none => simp [hss, hts, hes]
      | some es =>
        cases hte : fromisoformat es with
        | none => simp [hss, hts, hes, hte]
        | some te =>
          by_cases hle : te ≤ ts
          · simp [hss, hts, hes, hte, hle]
          · simp [hss, hts, hes, hte, hle]
            omega

/-- The merged-date validation block never produces a success result. -/
theorem mergedCheck_not_ok (a : Announcement) (e sd : Option String)
    (s2 : Store) (ret : Announcement) :
    mergedCheck a e sd ≠ some (.ok s2 ret) := by
  unfold mergedCheck
  cases hss : mergeField sd a.start_date with
  | none => simp [hss]
  | some ss =>
    cases hts : fromisoformat ss with
    | none => simp [hss, hts]
    | some ts =>
      cases hes : mergeField e a.expiration_date with
      | none => simp [hss, hts, hes]
      | some es =>
        cases hte : fromisoformat es with
        | none => simp [hss, hts, hes, hte]
        | some te =>
          by_cases hle : te ≤ ts
          · simp [hss, hts, hes, hte, hle]
          · simp [hss, hts, hes, hte, hle]

/-- A successful update went through the final write block. -/
theorem update_ok_through_write (s : Store) (id : String)
    (t m e sd : Option String) (s2 : Store) (ret : Announcement)
    (h : update_announcement s id t m e sd = .ok s2 ret) :
    ∃ obj_id, parseObjectId id = some obj_id ∧
      updateWrite s obj_id t m e sd = .ok s2 ret := by
  unfold update_announcement at h
  cases hp : parseObjectId id with
  | none => simp only [hp] at h; simp at h
  | some obj_id =>
    simp only [hp] at h
    refine ⟨obj_id, rfl, ?_⟩
    by_cases hflds :
        (t.isNone && m.isNone && e.isNone && sd.isNone) = true
    · rw [if_pos hflds] at h; simp at h
    · rw [if_neg hflds] at h
      by_cases hdate : (sd.isSome || e.isSome) = true
      · rw [if_pos hdate] at h
        cases hfind : s.docs.find? (fun d => d.id == obj_id) with
        | none => simp only [hfind] at h; simp at h
        | some a =>
          simp only [hfind] at h
          cases hchk : mergedCheck a e sd with
          | none => simp only [hchk] at h; exact h
          | some r =>
            simp only [hchk] at h
            exact absurd (h ▸ hchk) (mergedCheck_not_ok a e sd s2 ret)
      · rw [if_neg hdate] at h
        exact h

/-- Full inversion of a successful update. -/
theorem update_ok_inv (s : Store) (id : String) (t m e sd : Option String)
    (s2 : Store) (ret : Announcement)
    (h : update_announcement s id t m e sd = .ok s2 ret) :
    ∃ obj_id a, parseObjectId id = some obj_id ∧
      s.docs.find? (fun d => d.id == obj_id) = some a ∧
      ret = applyFields t m e sd a ∧
      s2 = ⟨updateFirst (fun d => d.id == obj_id) (applyFields t m e sd)
        s.docs, s.nextId⟩ := by
  obtain ⟨obj_id, hp, hw⟩ := update_ok_through_write s id t m e sd s2 ret h
  obtain ⟨a, hfind, hret, hs2⟩ := updateWrite_ok_inv s obj_id t m e sd s2 ret hw
  exact ⟨obj_id, a, hp, hfind, hret, hs2⟩


/-- The date branch of a successful update validated the merged dates,
which are exactly the dates stored in the returned record. -/
theorem update_ok_merged_dates (s : Store) (id : String)
    (t m e sd : Option String) (s2 : Store) (ret : Announcement)
    (hdate : (sd.isSome || e.isSome) = true)
    (h : update_announcement s id t m e sd = .ok s2 ret) :
    datesOk ret := by
  unfold update_announcement at h
  cases hp : parseObjectId id with
  | none => simp only [hp] at h; simp at h
  | some obj_id =>
    simp only [hp] at h
    by_cases hflds : (t.isNone && m.isNone && e.isNone && sd.isNone) = true
    · rw [if_pos hflds] at h; simp at h
    · rw [if_neg hflds] at h
      rw [if_pos hdate] at h
      cases hfind : s.docs.find? (fun d => d.id == obj_id) with
      | none => simp only [hfind] at h; simp at h
      | some a =>
        simp only [hfind] at h
        cases hchk : mergedCheck a e sd with
        | some r =>
          simp only [hchk] at h
          exact absurd (h ▸ hchk) (mergedCheck_not_ok a e sd s2 ret)
        | none =>
          simp only [hchk] at h
          obtain ⟨a2, hfind2, hret, hs2⟩ :=
            updateWrite_ok_inv s obj_id t m e sd s2 ret h
          rw [hfind] at hfind2
          injection hfind2 with haa
          subst haa
          obtain ⟨ss, es, ts, te, hms, hme, hts, hte, hlt⟩ :=
            (mergedCheck_pass_iff a e sd).mp hchk
          refine ⟨ss, es, ts, te, ?_, ?_, hts, hte, hlt⟩
          · rw [hret]; exact hms
          · rw [hret]; exact hme

/-- C1: after every successful create, and after every successful update
that supplies `start_date` or `expiration_date`, the touched record is in
the stored collection and its stored dates are present, parse, and satisfy
`expiration_date > start_date` on the parsed timestamps. -/
theorem C1_date_ordering_invariant :
    (∀ s now title message expiration_date start_date s2 doc,
      create_announcement s now title message expiration_date start_date =
        .ok s2 doc →
      doc ∈ s2.docs ∧ datesOk doc) ∧
    (∀ s id t m e sd s2 ret,
      sd ≠ none ∨ e ≠ none →
      update_announcement s id t m e sd = .ok s2 ret →
      ret ∈ s2.docs ∧ datesOk ret) := by
  constructor
  · intro s now title message expiration_date start_date s2 doc h
    obtain ⟨ts, te, hs, he, hlt, hdoc, hs2⟩ :=
      create_ok_inv s now title message expiration_date start_date s2 doc h
    constructor
    · rw [hs2]; simp
    · exact ⟨effectiveStart now start_date, expiration_date, ts, te,
        by rw [hdoc], by rw [hdoc], hs, he, hlt⟩
  · intro s id t m e sd s2 ret hne h
    have hdate : (sd.isSome || e.isSome) = true := by
      rcases hne with h2 | h2 <;> simp [Option.isSome_iff_ne_none, h2]
    obtain ⟨obj_id, a, hp, hfind, hret, hs2⟩ :=
      update_ok_inv s id t m e sd s2 ret h
    refine ⟨?_, update_ok_merged_dates s id t m e sd s2 ret hdate h⟩
    have hfu := find_updateFirst (fun d => d.id == obj_id)
      (applyFields t m e sd) s.docs (fun b => rfl)
    rw [hfind, Option.map_some'] at hfu
    rw [hs2, hret]
    exact List.mem_of_find?_eq_some hfu

/-- C1 witness: a concrete successful create leaves a stored record with
presently parsed, correctly ordered dates. -/
theorem C1_date_ordering_invariant_witness :
    (⟨0, "t", "m", some "2024-01-01T00:00:00", some "2025-01-01T00:00:00",
      "2024-01-01T00:00:00"⟩ : Announcement) ∈
      (⟨[⟨0, "t", "m", some "2024-01-01T00:00:00", some "2025-01-01T00:00:00",
        "2024-01-01T00:00:00"⟩], 1⟩ : Store).docs ∧
    datesOk ⟨0, "t", "m", some "2024-01-01T00:00:00",
      some "2025-01-01T00:00:00", "2024-01-01T00:00:00"⟩ :=
  C1_date_ordering_invariant.1 ⟨[], 0⟩ "2024-01-01T00:00:00" "t" "m"
    "2025-01-01T00:00:00" none _ _ (by decide)

/-- C9: an update that supplies only `expiration_date`, on an existing
record whose `start_date` is absent or null, escapes as an uncaught
`TypeError`: `datetime.fromisoformat(None)` raises outside the
`except ValueError` clause, so the call neither validates, nor 404s, nor
updates. -/
theorem C9_uncaught_typeError_on_missing_start (s : Store) (id : String)
    (obj_id : Nat) (a : Announcement) (es : String)
    (hp : parseObjectId id = some obj_id)
    (hfind : s.docs.find? (fun d => d.id == obj_id) = some a)
    (hstart : a.start_date = none) :
    update_announcement s id none none (some es) none = .typeError := by
  unfold update_announcement mergedCheck mergeField
  simp [hp, hfind, hstart]

/-- C9 witness: concrete store and call reaching the uncaught
`TypeError`. -/
theorem C9_uncaught_typeError_on_missing_start_witness :
    update_announcement ⟨[sampleDocNoStart], 1⟩ zeroId
      none none (some "2026-01-01T00:00:00") none = .typeError :=
  C9_uncaught_typeError_on_missing_start ⟨[sampleDocNoStart], 1⟩ zeroId 0
    sampleDocNoStart "2026-01-01T00:00:00" (by decide) (by decide) rfl

/-- C10: a supplied empty-string `start_date` behaves exactly like an
omitted one — Python's falsy test replaces it with the current instant,
which becomes the stored and validated start date. -/
theorem C10_empty_start_defaults_to_now :
    (∀ s now title message expiration_date,
      create_announcement s now title message expiration_date (some "") =
        create_announcement s now title message expiration_date none) ∧
    (∀ s now title message expiration_date s2 doc,
      create_announcement s now title message expiration_date (some "") =
        .ok s2 doc →
      doc.start_date = some now) := by
  constructor
  · intro s now title message expiration_date
    rfl
  · intro s now title message expiration_date s2 doc h
    obtain ⟨ts, te, hs, he, hlt, hdoc, hs2⟩ :=
      create_ok_inv s now title message expiration_date (some "") s2 doc h
    rw [hdoc]
    simp [effectiveStart]

/-- C10 witness: a concrete create with `start_date=""` stores `now` as
the start date. -/
theorem C10_empty_start_defaults_to_now_witness :
    (⟨0, "t", "m", some "2024-01-01T00:00:00", some "2025-01-01T00:00:00",
      "2024-01-01T00:00:00"⟩ : Announcement).start_date =
      some "2024-01-01T00:00:00" :=
  C10_empty_start_defaults_to_now.2 ⟨[], 0⟩ "2024-01-01T00:00:00" "t" "m"
    "2025-01-01T00:00:00"
    ⟨[⟨0, "t", "m", some "2024-01-01T00:00:00", some "2025-01-01T00:00:00",
      "2024-01-01T00:00:00"⟩], 1⟩
    ⟨0, "t", "m", some "2024-01-01T00:00:00", some "2025-01-01T00:00:00",
      "2024-01-01T00:00:00"⟩ (by decide)

/-- C2 counterexample: the empty string is not parsable as an ISO-8601
timestamp, yet a create supplying `start_date=""` does not fail — the
falsy default replaces it with `now` and a record is persisted. -/
theorem C2_counterexample_empty_start :
    fromisoformat "" = none ∧
    create_announcement ⟨[], 0⟩ "2024-01-01T00:00:00" "t" "m"
      "2025-01-01T00:00:00" (some "") =
      .ok ⟨[⟨0, "t", "m", some "2024-01-01T00:00:00",
        some "2025-01-01T00:00:00", "2024-01-01T00:00:00"⟩], 1⟩
        ⟨0, "t", "m", some "2024-01-01T00:00:00", some "2025-01-01T00:00:00",
          "2024-01-01T00:00:00"⟩ := by
  constructor
  · rfl
  · decide

/-- C2 (amended): if the effective start date — the supplied `start_date`
unless that is omitted or falsy/empty, in which case the current instant —
or the expiration date is unparsable, or the parsed expiration is at or
before the parsed start, create fails with a 400 `ValidationError` and the
collection is unchanged. -/
theorem C2_create_validation (s : Store)
    (now title message expiration_date : String) (start_date : Option String)
    (hbad : fromisoformat (effectiveStart now start_date) = none ∨
      fromisoformat expiration_date = none ∨
      ∃ ts te, fromisoformat (effectiveStart now start_date) = some ts ∧
        fromisoformat expiration_date = some te ∧ te ≤ ts) :
    ∃ d, create_announcement s now title message expiration_date start_date =
      .validationError d ∧
      storeAfter s (create_announcement s now title message expiration_date
        start_date) = s := by
  cases hs : fromisoformat (effectiveStart now start_date) with
  | none =>
    refine ⟨"Invalid date format", ?_, ?_⟩ <;>
      simp [create_announcement, storeAfter, hs]
  | some ts =>
    cases he : fromisoformat expiration_date with
    | none =>
      refine ⟨"Invalid date format", ?_, ?_⟩ <;>
        simp [create_announcement, storeAfter, hs, he]
    | some te =>
      have hle : te ≤ ts := by
        rcases hbad with hb | hb | ⟨ts2, te2, h1, h2, h3⟩
        · rw [hs] at hb; simp at hb
        · rw [he] at hb; simp at hb
        · rw [hs] at h1
          rw [he] at h2
          simp only [Option.some.injEq] at h1 h2
          rw [h1, h2]
          exact h3
      refine ⟨"Expiration date must be after start date", ?_, ?_⟩ <;>
        simp [create_announcement, storeAfter, hs, he, hle]

/-- C2 amended-claim witness: an out-of-order create fails with a 400 and
leaves the store unchanged. -/
theorem C2_create_validation_witness :
    ∃ d, create_announcement ⟨[], 0⟩ "2024-01-01T00:00:00" "t" "m"
      "2020-01-01T00:00:00" none = .validationError d ∧
      storeAfter ⟨[], 0⟩ (create_announcement ⟨[], 0⟩ "2024-01-01T00:00:00"
        "t" "m" "2020-01-01T00:00:00" none) = ⟨[], 0⟩ :=
  C2_create_validation ⟨[], 0⟩ "2024-01-01T00:00:00" "t" "m"
    "2020-01-01T00:00:00" none
    (Or.inr (Or.inr ⟨encodeDT 2024 1 1 0 0 0, encodeDT 2020 1 1 0 0 0,
      by decide, by decide, by decide⟩))

/-- C5: a successful update touches exactly the supplied fields of the
first matching record: `id` and `created_at` are unchanged, each supplied
field takes the supplied value and each unsupplied field keeps its stored
value, the rest of the collection and the id counter are untouched, and
the returned value is the stored post-update record. -/
theorem C5_update_frame (s : Store) (id : String)
    (t m e sd : Option String) (s2 : Store) (ret : Announcement)
    (h : update_announcement s id t m e sd = .ok s2 ret) :
    ∃ obj_id a, parseObjectId id = some obj_id ∧
      s.docs.find? (fun d => d.id == obj_id) = some a ∧
      ret.id = a.id ∧
      ret.created_at = a.created_at ∧
      ret.title = t.getD a.title ∧
      ret.message = m.getD a.message ∧
      ret.start_date = mergeField sd a.start_date ∧
      ret.expiration_date = mergeField e a.expiration_date ∧
      s2.nextId = s.nextId ∧
      s2.docs = updateFirst (fun d => d.id == obj_id)
        (applyFields t m e sd) s.docs ∧
      s2.docs.find? (fun d => d.id == obj_id) = some ret := by
  obtain ⟨obj_id, a, hp, hfind, hret, hs2⟩ :=
    update_ok_inv s id t m e sd s2 ret h
  subst hret
  subst hs2
  refine ⟨obj_id, a, hp, hfind, rfl, rfl, rfl, rfl, rfl, rfl, rfl, rfl, ?_⟩
  have hfu := find_updateFirst (fun d => d.id == obj_id)
    (applyFields t m e sd) s.docs (fun b => rfl)
  rw [hfind, Option.map_some'] at hfu
  exact hfu

/-- C5 witness: a concrete title-only update rewrites only the title. -/
theorem C5_update_frame_witness :
    ∃ obj_id a, parseObjectId zeroId = some obj_id ∧
      (Store.mk [sampleDoc] 1).docs.find? (fun d => d.id == obj_id) =
        some a ∧
      (⟨0, "t2", "m", some "2024-01-01T00:00:00", some "2025-01-01T00:00:00",
        "c"⟩ : Announcement).id = a.id ∧
      (⟨0, "t2", "m", some "2024-01-01T00:00:00", some "2025-01-01T00:00:00",
        "c"⟩ : Announcement).created_at = a.created_at ∧
      (⟨0, "t2", "m", some "2024-01-01T00:00:00", some "2025-01-01T00:00:00",
        "c"⟩ : Announcement).title = (some "t2").getD a.title ∧
      (⟨0, "t2", "m", some "2024-01-01T00:00:00", some "2025-01-01T00:00:00",
        "c"⟩ : Announcement).message = (none : Option String).getD a.message ∧
      (⟨0, "t2", "m", some "2024-01-01T00:00:00", some "2025-01-01T00:00:00",
        "c"⟩ : Announcement).start_date = mergeField none a.start_date ∧
      (⟨0, "t2", "m", some "2024-01-01T00:00:00", some "2025-01-01T00:00:00",
        "c"⟩ : Announcement).expiration_date = mergeField none a.expiration_date ∧
      (Store.mk [⟨0, "t2", "m", some "2024-01-01T00:00:00",
        some "2025-01-01T00:00:00", "c"⟩] 1).nextId =
        (Store.mk [sampleDoc] 1).nextId ∧
      (Store.mk [⟨0, "t2", "m", some "2024-01-01T00:00:00",
        some "2025-01-01T00:00:00", "c"⟩] 1).docs =
        updateFirst (fun d => d.id == obj_id)
          (applyFields (some "t2") none none none)
          (Store.mk [sampleDoc] 1).docs ∧
      (Store.mk [⟨0, "t2", "m", some "2024-01-01T00:00:00",
        some "2025-01-01T00:00:00", "c"⟩] 1).docs.find?
          (fun d => d.id == obj_id) =
        some ⟨0, "t2", "m", some "2024-01-01T00:00:00",
          some "2025-01-01T00:00:00", "c"⟩ :=
  C5_update_frame ⟨[sampleDoc], 1⟩ zeroId (some "t2") none none none
    ⟨[⟨0, "t2", "m", some "2024-01-01T00:00:00", some "2025-01-01T00:00:00",
      "c"⟩], 1⟩
    ⟨0, "t2", "m", some "2024-01-01T00:00:00", some "2025-01-01T00:00:00",
      "c"⟩ (by decide)

/-- C6: update's error taxonomy: a malformed identifier gives the 400
"Invalid announcement ID"; a well-formed identifier with no supplied
fields gives the 400 "No fields to update"; a well-formed identifier with
at least one supplied field but no matching record gives the 404; and no
call yields both a 400 and a 404. -/
theorem C6_update_error_taxonomy :
    (∀ s id t m e sd, parseObjectId id = none →
      update_announcement s id t m e sd =
        .validationError "Invalid announcement ID") ∧
    (∀ s id obj_id, parseObjectId id = some obj_id →
      update_announcement s id none none none none =
        .validationError "No fields to update") ∧
    (∀ s id obj_id t m e sd, parseObjectId id = some obj_id →
      ¬(t = none ∧ m = none ∧ e = none ∧ sd = none) →
      s.docs.find? (fun d => d.id == obj_id) = none →
      update_announcement s id t m e sd =
        .notFoundError "Announcement not found") ∧
    (∀ s id t m e sd d d2,
      update_announcement s id t m e sd = .validationError d →
      update_announcement s id t m e sd ≠ .notFoundError d2) := by
  refine ⟨?_, ?_, ?_, ?_⟩
  · intro s id t m e sd hp
    unfold update_announcement
    rw [hp]
  · intro s id obj_id hp
    unfold update_announcement
    rw [hp]
    simp
  · intro s id obj_id t m e sd hp hne hfind
    unfold update_announcement
    rw [hp]
    have hflds : (t.isNone && m.isNone && e.isNone && sd.isNone) = false := by
      cases t <;> cases m <;> cases e <;> cases sd <;> simp_all
    simp only [hflds, Bool.false_eq_true, if_false]
    by_cases hdate : (sd.isSome || e.isSome) = true
    · rw [if_pos hdate]
      simp only [hfind]
    · rw [if_neg hdate]
      unfold updateWrite
      simp only [hfind]
  · intro s id t m e sd d d2 hv
    rw [hv]
    simp

/-- C6 witness: the three error outcomes at concrete calls. -/
theorem C6_update_error_taxonomy_witness :
    update_announcement ⟨[], 0⟩ "xyz" (some "t2") none none none =
      .validationError "Invalid announcement ID" ∧
    update_announcement ⟨[], 0⟩ zeroId none none none none =
      .validationError "No fields to update" ∧
    update_announcement ⟨[], 0⟩ zeroId (some "t2") none none none =
      .notFoundError "Announcement not found" :=
  ⟨C6_update_error_taxonomy.1 ⟨[], 0⟩ "xyz" (some "t2") none none none
      (by decide),
    C6_update_error_taxonomy.2.1 ⟨[], 0⟩ zeroId 0 (by decide),
    C6_update_error_taxonomy.2.2.1 ⟨[], 0⟩ zeroId 0 (some "t2") none none none
      (by decide) (by simp) (by decide)⟩

/-- C8: delete's contract: malformed identifier gives the 400, well-formed
but absent gives the 404, and a present record is removed (first match
erased, counter untouched) with exactly the success message returned. -/
theorem C8_delete_contract :
    (∀ s id, parseObjectId id = none →
      delete_announcement s id = .validationError "Invalid announcement ID") ∧
    (∀ s id obj_id, parseObjectId id = some obj_id →
      s.docs.find? (fun d => d.id == obj_id) = none →
      delete_announcement s id = .notFoundError "Announcement not found") ∧
    (∀ s id obj_id a, parseObjectId id = some obj_id →
      s.docs.find? (fun d => d.id == obj_id) = some a →
      delete_announcement s id =
        .ok ⟨s.docs.eraseP (fun d => d.id == obj_id), s.nextId⟩
          "Announcement deleted successfully") := by
  refine ⟨?_, ?_, ?_⟩
  · intro s id hp
    unfold delete_announcement
    rw [hp]
  · intro s id obj_id hp hfind
    unfold delete_announcement
    rw [hp]
    simp only [hfind]
  · intro s id obj_id a hp hfind
    unfold delete_announcement
    rw [hp]
    simp only [hfind]

/-- C8 witness: the three delete outcomes at concrete calls. -/
theorem C8_delete_contract_witness :
    delete_announcement ⟨[sampleDoc], 1⟩ "not-an-id" =
      .validationError "Invalid announcement ID" ∧
    delete_announcement ⟨[], 0⟩ zeroId =
      .notFoundError "Announcement not found" ∧
    delete_announcement ⟨[sampleDoc], 1⟩ zeroId =
      .ok ⟨[], 1⟩ "Announcement deleted successfully" := by
  refine ⟨C8_delete_contract.1 ⟨[sampleDoc], 1⟩ "not-an-id" (by decide),
    C8_delete_contract.2.1 ⟨[], 0⟩ zeroId 0 (by decide) (by decide), ?_⟩
  have := C8_delete_contract.2.2 ⟨[sampleDoc], 1⟩ zeroId 0 sampleDoc
    (by decide) (by decide)
  exact this.trans (by decide)

/-- C7: date-order re-validation happens exactly when a date field is
supplied, over the supplied values merged with the stored ones: a
title-only update succeeds with no date check at all (even when the stored
dates are out of order), a start-only update is checked against the stored
expiration, and an expiration-only update is checked against the stored
start. -/
theorem C7_merged_revalidation :
    (∀ s id obj_id a ttl, parseObjectId id = some obj_id →
      s.docs.find? (fun d => d.id == obj_id) = some a →
      update_announcement s id (some ttl) none none none =
        .ok ⟨updateFirst (fun d => d.id == obj_id)
          (applyFields (some ttl) none none none) s.docs, s.nextId⟩
          (applyFields (some ttl) none none none a)) ∧
    (∀ s id obj_id a ss es ts te, parseObjectId id = some obj_id →
      s.docs.find? (fun d => d.id == obj_id) = some a →
      a.expiration_date = some es →
      fromisoformat ss = some ts → fromisoformat es = some te →
      (te ≤ ts →
        update_announcement s id none none none (some ss) =
          .validationError "Expiration date must be after start date") ∧
      (ts < te →
        update_announcement s id none none none (some ss) =
          .ok ⟨updateFirst (fun d => d.id == obj_id)
            (applyFields none none none (some ss)) s.docs, s.nextId⟩
            (applyFields none none none (some ss) a))) ∧
    (∀ s id obj_id a ss es ts te, parseObjectId id = some obj_id →
      s.docs.find? (fun d => d.id == obj_id) = some a →
      a.start_date = some ss →
      fromisoformat ss = some ts → fromisoformat es = some te →
      (te ≤ ts →
        update_announcement s id none none (some es) none =
          .validationError "Expiration date must be after start date") ∧
      (ts < te →
        update_announcement s id none none (some es) none =
          .ok ⟨updateFirst (fun d => d.id == obj_id)
            (applyFields none none (some es) none) s.docs, s.nextId⟩
            (applyFields none none (some es) none a))) := by
  refine ⟨?_, ?_, ?_⟩
  · intro s id obj_id a ttl hp hfind
    unfold update_announcement
    rw [hp]
    exact updateWrite_eq_ok s obj_id (some ttl) none none none a hfind
  · intro s id obj_id a ss es ts te hp hfind hexp hts hte
    constructor
    · intro hle
      have hchk : mergedCheck a none (some ss) =
          some (.validationError
            "Expiration date must be after start date") := by
        unfold mergedCheck mergeField
        simp [hexp, hts, hte, hle]
      unfold update_announcement
      rw [hp]
      simp [hfind, hchk]
    · intro hlt
      have hchk : mergedCheck a none (some ss) = none := by
        unfold mergedCheck mergeField
        simp [hexp, hts, hte, not_le.mpr hlt]
      unfold update_announcement
      rw [hp]
      simp only [hfind, hchk]
      exact updateWrite_eq_ok s obj_id none none none (some ss) a hfind
  · intro s id obj_id a ss es ts te hp hfind hstart hts hte
    constructor
    · intro hle
      have hchk : mergedCheck a (some es) none =
          some (.validationError
            "Expiration date must be after start date") := by
        unfold mergedCheck mergeField
        simp [hstart, hts, hte, hle]
      unfold update_announcement
      rw [hp]
      simp [hfind, hchk]
    · intro hlt
      have hchk : mergedCheck a (some es) none = none := by
        unfold mergedCheck mergeField
        simp [hstart, hts, hte, not_le.mpr hlt]
      unfold update_announcement
      rw [hp]
      simp only [hfind, hchk]
      exact updateWrite_eq_ok s obj_id none none (some es) none a hfind

/-- C7 witness: a title-only update succeeds on a record with out-of-order
stored dates; a start-only update is rejected against the stored
expiration; an expiration-only update is rejected against the stored
start. -/
theorem C7_merged_revalidation_witness :
    update_announcement ⟨[badDoc], 1⟩ zeroId (some "t2") none none none =
      .ok ⟨[⟨0, "t2", "m", some "2030-01-01T00:00:00",
        some "2020-01-01T00:00:00", "c"⟩], 1⟩
        ⟨0, "t2", "m", some "2030-01-01T00:00:00", some "2020-01-01T00:00:00",
          "c"⟩ ∧
    update_announcement ⟨[sampleDoc], 1⟩ zeroId none none none
      (some "2026-01-01T00:00:00") =
      .validationError "Expiration date must be after start date" ∧
    update_announcement ⟨[sampleDoc], 1⟩ zeroId none none
      (some "2023-01-01T00:00:00") none =
      .validationError "Expiration date must be after start date" := by
  refine ⟨?_, ?_, ?_⟩
  · have h1 := C7_merged_revalidation.1 ⟨[badDoc], 1⟩ zeroId 0 badDoc "t2"
      (by decide) (by decide)
    exact h1.trans (by decide)
  · exact (C7_merged_revalidation.2.1 ⟨[sampleDoc], 1⟩ zeroId 0 sampleDoc
      "2026-01-01T00:00:00" "2025-01-01T00:00:00"
      (encodeDT 2026 1 1 0 0 0) (encodeDT 2025 1 1 0 0 0)
      (by decide) (by decide) rfl (by decide) (by decide)).1 (by decide)
  · exact (C7_merged_revalidation.2.2 ⟨[sampleDoc], 1⟩ zeroId 0 sampleDoc
      "2024-01-01T00:00:00" "2023-01-01T00:00:00"
      (encodeDT 2024 1 1 0 0 0) (encodeDT 2023 1 1 0 0 0)
      (by decide) (by decide) rfl (by decide) (by decide)).1 (by decide)
